import Mathlib

/-!
Verification development for the sapo container deployment lifecycle engine.

Each definition below is a shallow embedding of a function from the Python
sources under `src/sapo/cli/install_mode/`:

* `src/sapo/cli/install_mode/docker/config.py` — `DockerConfig`,
  `generate_password`, `generate_joinkey`;
* `src/sapo/cli/install_mode/docker/container.py` — `ContainerStatus`,
  `DockerContainerManager.start_containers`, `get_container_status`;
* `src/sapo/cli/install_mode/docker/volume.py` — `VolumeManager.create_volume`,
  `create_volume_set`, `restore_volume`;
* `src/sapo/cli/install_mode/common/file_utils.py` — `safe_write_file`.

External effects (the container runtime, the filesystem, the random source,
interactive prompts) are passed in explicitly as oracle arguments, so every
definition is an executable function of its inputs.  Python exceptions are
modelled with `Except` or with explicit error constructors; Python truthiness
of strings (`if not s:`) is modelled by `strFalsy`.
-/

/-- `OperationStatus` from `install_mode/common/__init__.py`:
SUCCESS, ERROR, WARNING, SKIPPED. -/
inductive OperationStatus where
  | success
  | error
  | warning
  | skipped
deriving DecidableEq, Repr

/-- Python truthiness test for an optional string: `None` and `""` are falsy.
Used wherever the source writes `if not x:` on an `Optional[str]` value. -/
def strFalsy : Option String → Bool
  | none => true
  | some s => s == ""

/-! ## Credential generator (`docker/config.py`) -/

/-- One hexadecimal digit, lowercase, as produced by `secrets.token_hex`
(0–9 map to `'0'`–`'9'`, 10–15 map to `'a'`–`'f'`). -/
def hexDigit (n : Nat) : Char :=
  if n < 10 then Char.ofNat (48 + n) else Char.ofNat (87 + n)

/-- Hex encoding of a single byte: two lowercase hex digits. -/
def byteToHex (b : Nat) : List Char :=
  [hexDigit (b / 16), hexDigit (b % 16)]

/-- `secrets.token_hex` applied to an explicit list of random bytes: the
concatenation of the two-digit lowercase hex encoding of each byte.  The
randomness source is the `bytes` argument. -/
def token_hex (bytes : List Nat) : String :=
  String.mk ((bytes.map byteToHex).flatten)

/-- The sixteen characters that may appear in a lowercase hex string. -/
def hexAlphabet : List Char := "0123456789abcdef".data

/-- `DatabaseType` from `docker/config.py`. -/
inductive DatabaseType where
  | postgresql
  | derby
deriving DecidableEq, Repr

/-- The fields of the pydantic model `DockerConfig` in `docker/config.py`
(paths are modelled as strings; the private `_passwords` cache is threaded
separately where needed).  Defaults mirror the `Field(default=...)` values. -/
structure DockerConfig where
  version : String
  port : Nat := 8082
  data_dir : String := "~/.jfrog/artifactory"
  database_type : DatabaseType := DatabaseType.postgresql
  postgres_user : String := "artifactory"
  postgres_db : String := "artifactory"
  output_dir : Option String := none
  joinkey : Option String := none
deriving DecidableEq, Repr

/-- The `model_validator` `set_default_output_dir`: if `output_dir` was not
provided it becomes `data_dir / "docker"`. -/
def set_default_output_dir (cfg : DockerConfig) : DockerConfig :=
  match cfg.output_dir with
  | none => { cfg with output_dir := some (cfg.data_dir ++ "/docker") }
  | some _ => cfg

/-- `DockerConfig.generate_joinkey` (config.py lines 100–110):

```
if not self.joinkey:
    self.joinkey = secrets.token_hex(16)
return self.joinkey
```

The 16 random bytes drawn by `secrets.token_hex(16)` are the `entropy`
argument.  Returns the produced key together with the updated configuration
(the mutation of `self.joinkey`). -/
def generate_joinkey (entropy : List Nat) (cfg : DockerConfig) :
    String × DockerConfig :=
  if strFalsy cfg.joinkey then
    let k := token_hex entropy
    (k, { cfg with joinkey := some k })
  else
    (cfg.joinkey.getD "", cfg)

theorem byteToHex_length (b : Nat) : (byteToHex b).length = 2 := rfl

theorem token_hex_length (bytes : List Nat) :
    (token_hex bytes).length = 2 * bytes.length := by
  unfold token_hex
  show ((bytes.map byteToHex).flatten).length = 2 * bytes.length
  induction bytes with
  | nil => rfl
  | cons b rest ih =>
      simp only [List.map_cons, List.flatten_cons, List.length_append,
        byteToHex_length, ih, List.length_cons]
      ring

theorem hexDigit_mem : ∀ n < 16, hexDigit n ∈ hexAlphabet := by decide

theorem byteToHex_mem (b : Nat) (hb : b < 256) :
    ∀ c ∈ byteToHex b, c ∈ hexAlphabet := by
  intro c hc
  have h1 : b / 16 < 16 := by omega
  have h2 : b % 16 < 16 := Nat.mod_lt _ (by omega)
  simp only [byteToHex, List.mem_cons, List.not_mem_nil, or_false] at hc
  rcases hc with rfl | rfl
  · exact hexDigit_mem _ h1
  · exact hexDigit_mem _ h2

theorem token_hex_mem (bytes : List Nat) (hb : ∀ b ∈ bytes, b < 256) :
    ∀ c ∈ (token_hex bytes).data, c ∈ hexAlphabet := by
  intro c hc
  unfold token_hex at hc
  simp only [String.data] at hc
  rcases List.mem_flatten.mp hc with ⟨l, hl, hcl⟩
  rcases List.mem_map.mp hl with ⟨b, hbmem, rfl⟩
  exact byteToHex_mem b (hb b hbmem) c hcl

theorem token_hex_ne_empty (bytes : List Nat) (h : bytes.length = 16) :
    token_hex bytes ≠ "" := by
  intro hcontra
  have := token_hex_length bytes
  rw [hcontra, h] at this
  simp [String.length] at this

theorem generate_joinkey_of_none (e : List Nat) (cfg : DockerConfig)
    (h : cfg.joinkey = none) :
    generate_joinkey e cfg =
      (token_hex e, { cfg with joinkey := some (token_hex e) }) := by
  simp [generate_joinkey, strFalsy, h]

theorem generate_joinkey_of_empty (e : List Nat) (cfg : DockerConfig)
    (h : cfg.joinkey = some "") :
    generate_joinkey e cfg =
      (token_hex e, { cfg with joinkey := some (token_hex e) }) := by
  simp [generate_joinkey, strFalsy, h]

theorem generate_joinkey_of_nonempty (e : List Nat) (cfg : DockerConfig)
    (s : String) (hs : cfg.joinkey = some s) (hne : s ≠ "") :
    generate_joinkey e cfg = (s, cfg) := by
  simp [generate_joinkey, strFalsy, hs, hne]

/-- C3 counterexample: the claim quantifies over *every* `DockerConfig`
constructed with a supplied join key, "even if it does not match the hex
pattern".  Constructing the configuration with the supplied join key `""`
(which does not match the pattern), `generate_joinkey` does not return the
supplied value: `if not self.joinkey:` treats the empty string as absent and a
fresh key is generated instead. -/
theorem claim_c3_counterexample :
    (generate_joinkey (List.replicate 16 171)
      { version := "7.77.0", joinkey := some "" }).1 ≠ "" := by decide

/-- C3 (amended): for every `DockerConfig` constructed without a join key,
`generate_joinkey` returns a 32-character string of lowercase hex digits and a
second call on the resulting configuration returns the same value; for every
`DockerConfig` constructed with a supplied **non-empty** join key,
`generate_joinkey` returns exactly that value unmodified, even if it does not
match the hex pattern. -/
theorem claim_c3_generate_joinkey (cfg : DockerConfig) (e1 e2 : List Nat)
    (hlen : e1.length = 16) (hbytes : ∀ b ∈ e1, b < 256) :
    (cfg.joinkey = none →
      (generate_joinkey e1 cfg).1.length = 32 ∧
      (∀ c ∈ (generate_joinkey e1 cfg).1.data, c ∈ hexAlphabet) ∧
      (generate_joinkey e2 (generate_joinkey e1 cfg).2).1 =
        (generate_joinkey e1 cfg).1) ∧
    (∀ s : String, cfg.joinkey = some s → s ≠ "" →
      (generate_joinkey e1 cfg).1 = s) := by
  constructor
  · intro hnone
    rw [generate_joinkey_of_none e1 cfg hnone]
    refine ⟨?_, token_hex_mem e1 hbytes, ?_⟩
    · rw [token_hex_length, hlen]
    · exact congrArg Prod.fst
        (generate_joinkey_of_nonempty e2 _ (token_hex e1) rfl
          (token_hex_ne_empty e1 hlen))
  · intro s hs hne
    rw [generate_joinkey_of_nonempty e1 cfg s hs hne]

/-- Witness for C3: instantiates the theorem at a configuration without a
join key and sixteen concrete random bytes. -/
theorem claim_c3_generate_joinkey_witness :
    (List.replicate 16 171).length = 16 ∧
    (∀ b ∈ List.replicate 16 171, b < 256) ∧
    ((({ version := "7.77.0" } : DockerConfig).joinkey = none →
      (generate_joinkey (List.replicate 16 171)
        { version := "7.77.0" }).1.length = 32 ∧
      (∀ c ∈ (generate_joinkey (List.replicate 16 171)
        { version := "7.77.0" }).1.data, c ∈ hexAlphabet) ∧
      (generate_joinkey (List.replicate 16 0)
          (generate_joinkey (List.replicate 16 171)
            { version := "7.77.0" }).2).1 =
        (generate_joinkey (List.replicate 16 171)
          { version := "7.77.0" }).1) ∧
    (∀ s : String,
      ({ version := "7.77.0" } : DockerConfig).joinkey = some s → s ≠ "" →
      (generate_joinkey (List.replicate 16 171)
        { version := "7.77.0" }).1 = s)) :=
  ⟨by decide, by decide,
    claim_c3_generate_joinkey { version := "7.77.0" }
      (List.replicate 16 171) (List.replicate 16 0) (by decide) (by decide)⟩

/-- C10: a `DockerConfig` constructed with `joinkey` equal to the empty string
does not get that value back from `generate_joinkey`: the falsy join key is
treated as absent, a fresh 32-character lowercase-hex key is generated and
cached on the configuration, and the returned key is never the empty
string. -/
theorem claim_c10_empty_joinkey (cfg : DockerConfig) (e : List Nat)
    (hj : cfg.joinkey = some "") (hlen : e.length = 16)
    (hbytes : ∀ b ∈ e, b < 256) :
    (generate_joinkey e cfg).1 ≠ "" ∧
    (generate_joinkey e cfg).1.length = 32 ∧
    (∀ c ∈ (generate_joinkey e cfg).1.data, c ∈ hexAlphabet) ∧
    (generate_joinkey e cfg).2.joinkey = some (generate_joinkey e cfg).1 := by
  rw [generate_joinkey_of_empty e cfg hj]
  refine ⟨token_hex_ne_empty e hlen, ?_, token_hex_mem e hbytes, rfl⟩
  rw [token_hex_length, hlen]

/-- Witness for C10: instantiates the theorem at a configuration whose
join key is the empty string and sixteen concrete random bytes. -/
theorem claim_c10_empty_joinkey_witness :
    ({ version := "7.77.0", joinkey := some "" } : DockerConfig).joinkey =
      some "" ∧
    (List.replicate 16 171).length = 16 ∧
    (∀ b ∈ List.replicate 16 171, b < 256) ∧
    ((generate_joinkey (List.replicate 16 171)
        { version := "7.77.0", joinkey := some "" }).1 ≠ "" ∧
      (generate_joinkey (List.replicate 16 171)
        { version := "7.77.0", joinkey := some "" }).1.length = 32 ∧
      (∀ c ∈ (generate_joinkey (List.replicate 16 171)
        { version := "7.77.0", joinkey := some "" }).1.data,
          c ∈ hexAlphabet) ∧
      (generate_joinkey (List.replicate 16 171)
        { version := "7.77.0", joinkey := some "" }).2.joinkey =
        some (generate_joinkey (List.replicate 16 171)
          { version := "7.77.0", joinkey := some "" }).1) :=
  ⟨rfl, by decide, by decide,
    claim_c10_empty_joinkey { version := "7.77.0", joinkey := some "" }
      (List.replicate 16 171) rfl (by decide) (by decide)⟩

/-! ## Password generation (`DockerConfig.generate_password`, config.py
lines 50–85).  The four `secrets.choice` draws for the mandatory character
classes and the sixteen further draws from the full charset are oracle
arguments; `secrets.SystemRandom().shuffle` is modelled as an arbitrary
permutation of the assembled character list. -/

/-- `string.ascii_lowercase`. -/
def ascii_lowercase : List Char := "abcdefghijklmnopqrstuvwxyz".data

/-- `string.ascii_uppercase`. -/
def ascii_uppercase : List Char := "ABCDEFGHIJKLMNOPQRSTUVWXYZ".data

/-- `string.ascii_letters` (lowercase followed by uppercase). -/
def ascii_letters : List Char := ascii_lowercase ++ ascii_uppercase

/-- `string.digits`. -/
def digit_chars : List Char := "0123456789".data

/-- The Docker/YAML-safe special characters from config.py line 65. -/
def special_chars : List Char := "!@%^&*()-_=+.<>|;".data

/-- `charset = letters + digits + special_chars` (config.py line 66). -/
def password_charset : List Char := ascii_letters ++ digit_chars ++ special_chars

/-- The characters the spec says the charset excludes: dollar, backtick,
backslash, double quote, single quote. -/
def excluded_password_chars : List Char :=
  ['$', Char.ofNat 96, Char.ofNat 92, Char.ofNat 34, Char.ofNat 39]

/-- The `base_password` list of config.py lines 69–74: one draw from each
mandatory class, in source order. -/
def password_base_chars (u l d s : Char) : List Char := [u, l, d, s]

/-- The full character list assembled by `generate_password` before the final
shuffle: `password_chars = base_password + remaining_chars`
(config.py line 80), where `rest` is the sixteen draws from the charset. -/
def generate_password_chars (u l d s : Char) (rest : List Char) : List Char :=
  password_base_chars u l d s ++ rest

theorem ascii_uppercase_subset :
    ∀ c ∈ ascii_uppercase, c ∈ password_charset := by decide

theorem ascii_lowercase_subset :
    ∀ c ∈ ascii_lowercase, c ∈ password_charset := by decide

theorem digit_chars_subset :
    ∀ c ∈ digit_chars, c ∈ password_charset := by decide

theorem special_chars_subset :
    ∀ c ∈ special_chars, c ∈ password_charset := by decide

/-- C8: for every new key, `generate_password` produces a string of at least
20 characters (here: any permutation `pw` of the assembled character list)
containing at least one uppercase letter, one lowercase letter, one digit and
one special character, every character drawn from a charset that excludes
dollar, backtick, backslash and both quote characters. -/
theorem claim_c8_generate_password (u l d s : Char) (rest pw : List Char)
    (hu : u ∈ ascii_uppercase) (hl : l ∈ ascii_lowercase)
    (hd : d ∈ digit_chars) (hs : s ∈ special_chars)
    (hrest : ∀ c ∈ rest, c ∈ password_charset) (hlen : rest.length = 16)
    (hperm : List.Perm pw (generate_password_chars u l d s rest)) :
    20 ≤ pw.length ∧
    (∃ c ∈ pw, c ∈ ascii_uppercase) ∧
    (∃ c ∈ pw, c ∈ ascii_lowercase) ∧
    (∃ c ∈ pw, c ∈ digit_chars) ∧
    (∃ c ∈ pw, c ∈ special_chars) ∧
    (∀ c ∈ pw, c ∈ password_charset) ∧
    (∀ c ∈ password_charset, c ∉ excluded_password_chars) := by
  have hmem : ∀ c, c ∈ pw ↔ c ∈ generate_password_chars u l d s rest :=
    fun c => hperm.mem_iff
  have hbase : ∀ c ∈ password_base_chars u l d s,
      c ∈ generate_password_chars u l d s rest := by
    intro c hc
    exact List.mem_append_left _ hc
  refine ⟨?_, ?_, ?_, ?_, ?_, ?_, by decide⟩
  · have := hperm.length_eq
    simp only [generate_password_chars, password_base_chars,
      List.length_append, List.length_cons, List.length_nil, hlen] at this
    omega
  · exact ⟨u, (hmem u).mpr (hbase u (by simp [password_base_chars])), hu⟩
  · exact ⟨l, (hmem l).mpr (hbase l (by simp [password_base_chars])), hl⟩
  · exact ⟨d, (hmem d).mpr (hbase d (by simp [password_base_chars])), hd⟩
  · exact ⟨s, (hmem s).mpr (hbase s (by simp [password_base_chars])), hs⟩
  · intro c hc
    have hc2 := (hmem c).mp hc
    simp only [generate_password_chars, password_base_chars,
      List.mem_append, List.mem_cons, List.not_mem_nil, or_false] at hc2
    rcases hc2 with ((rfl | rfl | rfl | rfl) | hcr)
    · exact ascii_uppercase_subset _ hu
    · exact ascii_lowercase_subset _ hl
    · exact digit_chars_subset _ hd
    · exact special_chars_subset _ hs
    · exact hrest _ hcr

/-- Witness for C8: the concrete draws `A`, `a`, `0`, `!` and sixteen copies
of `x`, with the identity permutation. -/
theorem claim_c8_generate_password_witness :
    'A' ∈ ascii_uppercase ∧ 'a' ∈ ascii_lowercase ∧ '0' ∈ digit_chars ∧
    '!' ∈ special_chars ∧
    (∀ c ∈ List.replicate 16 'x', c ∈ password_charset) ∧
    (List.replicate 16 'x').length = 16 ∧
    List.Perm (generate_password_chars 'A' 'a' '0' '!' (List.replicate 16 'x'))
      (generate_password_chars 'A' 'a' '0' '!' (List.replicate 16 'x')) ∧
    (20 ≤ (generate_password_chars 'A' 'a' '0' '!'
        (List.replicate 16 'x')).length ∧
      (∃ c ∈ generate_password_chars 'A' 'a' '0' '!' (List.replicate 16 'x'),
        c ∈ ascii_uppercase) ∧
      (∃ c ∈ generate_password_chars 'A' 'a' '0' '!' (List.replicate 16 'x'),
        c ∈ ascii_lowercase) ∧
      (∃ c ∈ generate_password_chars 'A' 'a' '0' '!' (List.replicate 16 'x'),
        c ∈ digit_chars) ∧
      (∃ c ∈ generate_password_chars 'A' 'a' '0' '!' (List.replicate 16 'x'),
        c ∈ special_chars) ∧
      (∀ c ∈ generate_password_chars 'A' 'a' '0' '!' (List.replicate 16 'x'),
        c ∈ password_charset) ∧
      (∀ c ∈ password_charset, c ∉ excluded_password_chars)) :=
  ⟨by decide, by decide, by decide, by decide, by decide, by decide,
    List.Perm.refl _,
    claim_c8_generate_password 'A' 'a' '0' '!' (List.replicate 16 'x') _
      (by decide) (by decide) (by decide) (by decide) (by decide) (by decide)
      (List.Perm.refl _)⟩

/-! ## Container lifecycle manager (`docker/container.py`) -/

/-- ASCII whitespace as recognised by Python's `str.strip()` (the source only
ever strips ASCII command output). -/
def isPySpace (c : Char) : Bool :=
  c = ' ' ∨ c = '\t' ∨ c = '\n' ∨ c = '\r' ∨ c = '\x0b' ∨ c = '\x0c'

/-- Python's `str.strip()`: drop leading and trailing whitespace. -/
def pyStrip (s : String) : String :=
  String.mk (((s.data.dropWhile isPySpace).reverse.dropWhile isPySpace).reverse)

/-- Python's `str.endswith(suffix)`. -/
def pyEndsWith (s sfx : String) : Bool :=
  sfx.data.isSuffixOf s.data

/-- `ContainerStatus` from container.py lines 15–21.  Note that the source
enum has exactly these four members: RUNNING, STOPPED, UNHEALTHY, UNKNOWN —
there is no HEALTHY member. -/
inductive ContainerStatus where
  | running
  | stopped
  | unhealthy
  | unknown
deriving DecidableEq, Repr

/-- Result of one external command: exit code and captured stdout. -/
structure ExecResult where
  returncode : Int
  stdout : String
deriving DecidableEq, Repr

/-- The two runtime queries `get_container_status` performs for one container:
the `docker inspect --format \x7b\x7b.State.Status\x7d\x7d` call and the
follow-up health call.  `none` models the subprocess call raising an
exception (caught by the enclosing `except Exception`). -/
structure InspectEnv where
  statusQuery : Option ExecResult
  healthQuery : Option ExecResult

/-- `DockerContainerManager.get_container_status` (container.py lines
294–340): non-zero exit → UNKNOWN; stripped stdout `"running"` → consult the
health query, returning UNHEALTHY exactly when it exits 0 with stripped
stdout `"unhealthy"` and RUNNING otherwise; `"exited"` → STOPPED; any other
status string or any raised exception → UNKNOWN. -/
def get_container_status (env : InspectEnv) : ContainerStatus :=
  match env.statusQuery with
  | none => ContainerStatus.unknown
  | some r =>
    if r.returncode ≠ 0 then ContainerStatus.unknown
    else
      let status := pyStrip r.stdout
      if status = "running" then
        match env.healthQuery with
        | none => ContainerStatus.unknown
        | some h =>
          if h.returncode = 0 ∧ pyStrip h.stdout = "unhealthy" then
            ContainerStatus.unhealthy
          else
            ContainerStatus.running
      else if status = "exited" then ContainerStatus.stopped
      else ContainerStatus.unknown

/-- One iteration of the readiness poll inside `start_containers`
(container.py lines 199–255): the `docker compose ps -q artifactory` call run
with `check=True` (`psOk = false` models it raising `SubprocessError`), its
stdout, the `docker inspect` health call (`healthOk = false` models it
raising), and that call's stdout. -/
structure PollResponse where
  psOk : Bool
  psStdout : String
  healthOk : Bool
  healthStdout : String

/-- Outcome of the poll loop, carrying the number of poll iterations that
executed. -/
inductive PollOutcome where
  | success (pollsExecuted : Nat)
  | checkError (pollsExecuted : Nat)
  | timeout
deriving DecidableEq, Repr

/-- The `while attempts < max_attempts` loop of `start_containers`
(container.py lines 199–255), with the runtime's answers supplied by `resp`
(indexed by iteration).  A non-empty container id whose health query strips
to `"healthy"` breaks out of the loop immediately; a raised
`SubprocessError` returns failure; otherwise the attempt counter advances. -/
def health_poll (resp : Nat → PollResponse) : Nat → Nat → PollOutcome
  | 0, _ => PollOutcome.timeout
  | fuel + 1, polls =>
    let r := resp polls
    if r.psOk then
      if pyStrip r.psStdout ≠ "" then
        if r.healthOk then
          if pyStrip r.healthStdout = "healthy" then
            PollOutcome.success (polls + 1)
          else health_poll resp fuel (polls + 1)
        else PollOutcome.checkError (polls + 1)
      else health_poll resp fuel (polls + 1)
    else PollOutcome.checkError (polls + 1)

/-- `max_attempts = 60` (container.py line 197). -/
def start_max_attempts : Nat := 60

/-- The external inputs of one `start_containers` run: Docker availability,
the `docker compose up -d` exit code, and the poll responses. -/
structure StartEnv where
  dockerAvailable : Bool
  composeExitCode : Int
  poll : Nat → PollResponse

/-- Terminal outcomes of `start_containers` (the boolean return value,
refined by which exit path produced it; only `started` maps to `True`). -/
inductive StartResult where
  | noDocker
  | composeFailed
  | healthCheckFailed
  | timedOut
  | started
deriving DecidableEq, Repr

/-- `DockerContainerManager.start_containers` (container.py lines 117–292),
returning the outcome together with the number of poll iterations executed.
The best-effort port resolution after the loop never changes the boolean
result and is omitted. -/
def start_containers (env : StartEnv) : StartResult × Nat :=
  if ¬ env.dockerAvailable then (StartResult.noDocker, 0)
  else if env.composeExitCode ≠ 0 then (StartResult.composeFailed, 0)
  else
    match health_poll env.poll start_max_attempts 0 with
    | PollOutcome.success n => (StartResult.started, n)
    | PollOutcome.checkError n => (StartResult.healthCheckFailed, n)
    | PollOutcome.timeout => (StartResult.timedOut, start_max_attempts)

/-- C1 (code bug): in a run where the health query reports the application
healthy on the very first poll, `start_containers` reports success after a
single poll iteration — the loop at container.py lines 199–255 breaks out the
moment `.State.Health.Status` strips to `"healthy"`, so no minimum of 3 poll
attempts is enforced, contradicting the spec and the repository's own tests
(test_docker_container.py requires `start_containers` to delegate to a
`wait_for_health` method with a three-attempt minimum). -/
theorem claim_c1_first_poll_success :
    start_containers
      { dockerAvailable := true, composeExitCode := 0,
        poll := fun _ =>
          { psOk := true, psStdout := "abc123def\n",
            healthOk := true, healthStdout := "healthy\n" } } =
      (StartResult.started, 1) ∧ 1 < 3 := by
  constructor
  · decide
  · decide

/-- C2 (code bug): when the runtime reports `status=running` with
`health=healthy`, `get_container_status` returns RUNNING, not the HEALTHY
value the claim requires — indeed the source `ContainerStatus` enum has no
HEALTHY member at all (second conjunct), contradicting the repository's own
test `test_get_container_status`, which expects `ContainerStatus.HEALTHY`
for exactly this input. -/
theorem claim_c2_running_healthy :
    get_container_status
      { statusQuery := some { returncode := 0, stdout := "running\n" },
        healthQuery := some { returncode := 0, stdout := "healthy\n" } } =
      ContainerStatus.running ∧
    ∀ st : ContainerStatus,
      st = ContainerStatus.running ∨ st = ContainerStatus.stopped ∨
      st = ContainerStatus.unhealthy ∨ st = ContainerStatus.unknown := by
  refine ⟨by decide, ?_⟩
  intro st
  cases st
  · exact Or.inl rfl
  · exact Or.inr (Or.inl rfl)
  · exact Or.inr (Or.inr (Or.inl rfl))
  · exact Or.inr (Or.inr (Or.inr rfl))

/-! ## Volume provisioner (`docker/volume.py`) -/

/-- `VolumeType` from volume.py lines 22–30. -/
inductive VolumeType where
  | data
  | logs
  | backup
  | postgresql
  | etc
  | all
deriving DecidableEq, Repr

/-- The `.value` string of each `VolumeType` member. -/
def volumeTypeStr : VolumeType → String
  | VolumeType.data => "data"
  | VolumeType.logs => "logs"
  | VolumeType.backup => "backup"
  | VolumeType.postgresql => "postgresql"
  | VolumeType.etc => "etc"
  | VolumeType.all => "all"

/-- `VolumeManager._get_purpose_for_type` (volume.py lines 227–244). -/
def get_purpose_for_type : VolumeType → String
  | VolumeType.data => "Artifactory data storage"
  | VolumeType.logs => "Artifactory logs"
  | VolumeType.backup => "Artifactory backup storage"
  | VolumeType.postgresql => "PostgreSQL database storage"
  | VolumeType.etc => "Artifactory configuration"
  | VolumeType.all => "All Artifactory data"

/-- The volume name `f"{self.volume_prefix}_{volume_type.value}_{name_suffix}"`
(volume.py line 163). -/
def volume_name (pfx : String) (t : VolumeType) (sfx : String) : String :=
  pfx ++ "_" ++ volumeTypeStr t ++ "_" ++ sfx

/-- `if not name_suffix:` — a missing or empty suffix is replaced by the
current timestamp (volume.py lines 159–161). -/
def resolve_suffix (timestamp : String) (sfx : Option String) : String :=
  if strFalsy sfx then timestamp else sfx.getD ""

/-- Python `dict.update` for a single key on an association list: replace the
value in place if the key is present, append the pair otherwise. -/
def dictUpsert (l : List (String × String)) (k v : String) :
    List (String × String) :=
  if l.any (fun p => p.1 == k) then
    l.map (fun p => if p.1 == k then (k, v) else p)
  else l ++ [(k, v)]

/-- The bind-mount driver options installed by
`driver_opts.update({"type": "none", "o": "bind", "device": str(host_path.absolute())})`
(volume.py lines 181–183); `devicePath` is the absolute host path. -/
def bindMountOpts (opts : List (String × String)) (devicePath : String) :
    List (String × String) :=
  dictUpsert (dictUpsert (dictUpsert opts "type" "none") "o" "bind")
    "device" devicePath

/-- The `--opt key=value` arguments appended for each driver option
(volume.py lines 194–196). -/
def optArgs : List (String × String) → List String
  | [] => []
  | (k, v) :: rest => "--opt" :: (k ++ "=" ++ v) :: optArgs rest

/-- The `--label key=value` arguments appended for each label
(volume.py lines 216–217). -/
def labelArgs : List (String × String) → List String
  | [] => []
  | (k, v) :: rest => "--label" :: (k ++ "=" ++ v) :: labelArgs rest

/-- `self.default_labels` (volume.py lines 49–52), with the creation
timestamp supplied explicitly. -/
def default_labels (createdAt : String) : List (String × String) :=
  [("com.jfrog.artifactory.managed-by", "sapo"),
   ("com.jfrog.artifactory.created-at", createdAt)]

/-- The label set assembled by `create_volume` (volume.py lines 198–213):
defaults, then volume-type and purpose, then the optional display name, then
the caller's labels. -/
def volume_labels (createdAt : String) (t : VolumeType)
    (display_name : Option String) (labels : List (String × String)) :
    List (String × String) :=
  let l1 := dictUpsert (default_labels createdAt)
    "com.jfrog.artifactory.volume-type" (volumeTypeStr t)
  let l2 := dictUpsert l1 "com.jfrog.artifactory.purpose"
    (get_purpose_for_type t)
  let l3 := match display_name with
    | none => l2
    | some dn => dictUpsert l2 "com.jfrog.artifactory.display-name" dn
  labels.foldl (fun acc p => dictUpsert acc p.1 p.2) l3

/-- The warning printed when a truthy non-local driver is combined with a
host path (volume.py lines 189–191). -/
def hostPathWarning : String :=
  "Warning: Using non-local driver with host path may not work as expected"

/-- The observable effects of one `VolumeManager.create_volume` call: the
host directories created via `os.makedirs(..., exist_ok=True)` (performed
before the command is issued), the assembled `docker volume create` argument
vector, and the warnings printed. -/
structure CreateVolumeCall where
  madeDirs : List String
  cmd : List String
  warnings : List String
deriving DecidableEq, Repr

/-- `VolumeManager.create_volume` (volume.py lines 131–225) up to the point
where `_run_command(cmd)` executes the assembled command.  `host_path` is
taken as an absolute path string.  The `RuntimeError("Docker is not
available")` raised when Docker is unreachable is the `Except.error` case;
the later `_run_command` failure is outside this function's scope (its
outcome is an oracle where needed). -/
def create_volume (dockerAvailable : Bool) (timestamp : String) (pfx : String)
    (volume_type : VolumeType) (name_suffix : Option String)
    (driver : Option String) (driver_opts : List (String × String))
    (labels : List (String × String)) (host_path : Option String)
    (display_name : Option String) : Except String CreateVolumeCall :=
  if ¬ dockerAvailable then Except.error "Docker is not available"
  else
    let sfx := resolve_suffix timestamp name_suffix
    let name := volume_name pfx volume_type sfx
    let cmd0 := ["docker", "volume", "create", name]
    let cmd1 :=
      if strFalsy driver then cmd0 else cmd0 ++ ["--driver", driver.getD ""]
    let allLabels := volume_labels timestamp volume_type display_name labels
    match host_path with
    | some p =>
      let opts := bindMountOpts driver_opts p
      let cmd2 := if strFalsy driver then cmd1 ++ ["--driver", "local"] else cmd1
      let warns :=
        if strFalsy driver = false ∧ driver ≠ some "local" then
          [hostPathWarning]
        else []
      Except.ok
        { madeDirs := [p],
          cmd := cmd2 ++ optArgs opts ++ labelArgs allLabels,
          warnings := warns }
    | none =>
      Except.ok
        { madeDirs := [],
          cmd := cmd1 ++ optArgs driver_opts ++ labelArgs allLabels,
          warnings := [] }

/-- The command vector of a `create_volume` result (`[]` if it raised). -/
def createCmdOf : Except String CreateVolumeCall → List String
  | Except.ok c => c.cmd
  | Except.error _ => []

/-- The warnings of a `create_volume` result (`[]` if it raised). -/
def createWarningsOf : Except String CreateVolumeCall → List String
  | Except.ok c => c.warnings
  | Except.error _ => []

theorem dictUpsert_self_mem (l : List (String × String)) (k v : String) :
    (k, v) ∈ dictUpsert l k v := by
  unfold dictUpsert
  by_cases h : l.any (fun p => p.1 == k)
  · rw [if_pos h]
    rcases List.any_eq_true.mp h with ⟨p, hp, hpk⟩
    have : (fun p : String × String => if p.1 == k then (k, v) else p) p =
        (k, v) := by simp only [hpk, if_true]
    exact List.mem_map.mpr ⟨p, hp, this⟩
  · rw [if_neg h]
    exact List.mem_append_right _ (List.mem_singleton.mpr rfl)

theorem dictUpsert_mem_of_ne (l : List (String × String)) (k v k' v' : String)
    (hmem : (k', v') ∈ l) (hne : k' ≠ k) :
    (k', v') ∈ dictUpsert l k v := by
  unfold dictUpsert
  by_cases h : l.any (fun p => p.1 == k)
  · rw [if_pos h]
    have : (fun p : String × String => if p.1 == k then (k, v) else p)
        (k', v') = (k', v') := by
      simp only [beq_eq_false_iff_ne.mpr hne, Bool.false_eq_true, if_false]
    exact List.mem_map.mpr ⟨(k', v'), hmem, this⟩
  · rw [if_neg h]
    exact List.mem_append_left _ hmem

theorem optArgs_mem (l : List (String × String)) (k v : String)
    (h : (k, v) ∈ l) : (k ++ "=" ++ v) ∈ optArgs l := by
  induction l with
  | nil => cases h
  | cons p rest ih =>
      rcases p with ⟨k0, v0⟩
      rcases List.mem_cons.mp h with heq | hmem
      · rw [Prod.mk.injEq] at heq
        unfold optArgs
        rw [heq.1, heq.2]
        exact List.mem_cons_of_mem _ (List.mem_cons_self _ _)
      · exact List.mem_cons_of_mem _ (List.mem_cons_of_mem _ (ih hmem))

theorem bindMountOpts_type (opts : List (String × String)) (p : String) :
    ("type", "none") ∈ bindMountOpts opts p := by
  unfold bindMountOpts
  exact dictUpsert_mem_of_ne _ _ _ _ _
    (dictUpsert_mem_of_ne _ _ _ _ _ (dictUpsert_self_mem opts _ _)
      (by decide)) (by decide)

theorem bindMountOpts_o (opts : List (String × String)) (p : String) :
    ("o", "bind") ∈ bindMountOpts opts p := by
  unfold bindMountOpts
  exact dictUpsert_mem_of_ne _ _ _ _ _ (dictUpsert_self_mem _ _ _) (by decide)

theorem bindMountOpts_device (opts : List (String × String)) (p : String) :
    ("device", p) ∈ bindMountOpts opts p :=
  dictUpsert_self_mem _ _ _

theorem create_volume_host_path_eq (timestamp pfx : String) (t : VolumeType)
    (sfx driver : Option String) (opts labels : List (String × String))
    (dn : Option String) (p : String) :
    create_volume true timestamp pfx t sfx driver opts labels (some p) dn =
      Except.ok
        { madeDirs := [p],
          cmd := (if strFalsy driver then
              ["docker", "volume", "create",
                volume_name pfx t (resolve_suffix timestamp sfx)] ++
                ["--driver", "local"]
            else
              ["docker", "volume", "create",
                volume_name pfx t (resolve_suffix timestamp sfx)] ++
                ["--driver", driver.getD ""]) ++
            optArgs (bindMountOpts opts p) ++
            labelArgs (volume_labels timestamp t dn labels),
          warnings :=
            if strFalsy driver = false ∧ driver ≠ some "local" then
              [hostPathWarning]
            else [] } := by
  by_cases h : strFalsy driver <;> simp [create_volume, h]

/-- C6 counterexample: with a host path and a requested driver `"nfs"`, the
assembled `docker volume create` command keeps `--driver nfs` — the driver is
*not* forced to `"local"` (the string `"local"` appears nowhere in the
command); only a warning is emitted. -/
theorem claim_c6_counterexample :
    "local" ∉ createCmdOf
      (create_volume true "t0" "artifactory" VolumeType.data (some "x")
        (some "nfs") [] [] (some "/srv/artifactory") none) ∧
    "nfs" ∈ createCmdOf
      (create_volume true "t0" "artifactory" VolumeType.data (some "x")
        (some "nfs") [] [] (some "/srv/artifactory") none) ∧
    createWarningsOf
      (create_volume true "t0" "artifactory" VolumeType.data (some "x")
        (some "nfs") [] [] (some "/srv/artifactory") none) =
      [hostPathWarning] := by
  refine ⟨by decide, by decide, by decide⟩

/-- C6 (amended): for every `create_volume` call with a host path, the host
path is created first with idempotent `mkdir -p` semantics
(`os.makedirs(..., exist_ok=True)`, recorded in `madeDirs`), the driver
options are augmented with `type=none`, `o=bind`, `device=<absolute path>`,
and the driver *defaults* to `"local"` when the caller requested none; when
the caller requested a different (truthy, non-local) driver, a warning is
emitted and the requested driver is kept on the command line. -/
theorem claim_c6_create_volume_host_path (timestamp pfx : String)
    (t : VolumeType) (sfx driver : Option String)
    (opts labels : List (String × String)) (dn : Option String) (p : String) :
    ∃ call,
      create_volume true timestamp pfx t sfx driver opts labels (some p) dn =
        Except.ok call ∧
      call.madeDirs = [p] ∧
      "type=none" ∈ call.cmd ∧
      "o=bind" ∈ call.cmd ∧
      ("device=" ++ p) ∈ call.cmd ∧
      (strFalsy driver = true → "--driver" ∈ call.cmd ∧ "local" ∈ call.cmd) ∧
      (∀ d : String, driver = some d → d ≠ "" → d ≠ "local" →
        call.warnings = [hostPathWarning] ∧ d ∈ call.cmd) := by
  refine ⟨_, create_volume_host_path_eq timestamp pfx t sfx driver opts labels
    dn p, rfl, ?_, ?_, ?_, ?_, ?_⟩
  · have h := optArgs_mem _ "type" "none" (bindMountOpts_type opts p)
    have e : ("type" ++ "=" ++ "none" : String) = "type=none" := by decide
    rw [e] at h
    exact List.mem_append_left _ (List.mem_append_right _ h)
  · have h := optArgs_mem _ "o" "bind" (bindMountOpts_o opts p)
    have e : ("o" ++ "=" ++ "bind" : String) = "o=bind" := by decide
    rw [e] at h
    exact List.mem_append_left _ (List.mem_append_right _ h)
  · have h := optArgs_mem _ "device" p (bindMountOpts_device opts p)
    have e : ("device" ++ "=" : String) = "device=" := by decide
    rw [show ("device" ++ "=" ++ p : String) = "device=" ++ p from
      congrArg (· ++ p) e] at h
    exact List.mem_append_left _ (List.mem_append_right _ h)
  · intro h
    rw [if_pos h]
    constructor
    · exact List.mem_append_left _ (List.mem_append_left _
        (List.mem_append_right _ (List.mem_cons_self _ _)))
    · exact List.mem_append_left _ (List.mem_append_left _
        (List.mem_append_right _ (List.mem_cons_of_mem _
          (List.mem_cons_self _ _))))
  · intro d hd hne hnl
    subst hd
    have hsf : strFalsy (some d) = false := by
      simp [strFalsy, hne]
    constructor
    · simp [hsf, hnl]
    · rw [if_neg (by simp [hsf])]
      exact List.mem_append_left _ (List.mem_append_left _
        (List.mem_append_right _ (List.mem_cons_of_mem _
          (List.mem_cons_self _ _))))

/-- The fixed creation order of `create_volume_set` (volume.py lines
650–656): data, logs, backup, postgresql, etc. -/
def volume_set_order : List VolumeType :=
  [VolumeType.data, VolumeType.logs, VolumeType.backup,
   VolumeType.postgresql, VolumeType.etc]

/-- The failure record of a `create_volume_set` call: the volume type whose
creation failed and, in order, the names passed to
`self.delete_volume(created_name, force=True)` during the compensating
cleanup (volume.py lines 697–702) before `RuntimeError` is raised. -/
structure VolumeSetFailure where
  failedType : VolumeType
  deletedForce : List String
deriving DecidableEq, Repr

/-- The `for volume_type in [...]` loop of `create_volume_set` (volume.py
lines 649–706).  `runFails t` is the oracle for whether the inner
`create_volume` call for type `t` raises (a `_run_command` failure or Docker
being unavailable); on success `create_volume` returns the deterministic name
`volume_name pfx t sfx` which is recorded in the accumulating `volumes`
mapping (`acc`, insertion-ordered like the Python dict).  On failure every
previously created volume is force-deleted and the error propagates. -/
def create_volume_set_go (pfx sfx : String) (runFails : VolumeType → Bool) :
    List VolumeType → List (VolumeType × String) →
      Except VolumeSetFailure (List (VolumeType × String))
  | [], acc => Except.ok acc
  | t :: rest, acc =>
    if runFails t then
      Except.error { failedType := t, deletedForce := acc.map Prod.snd }
    else
      create_volume_set_go pfx sfx runFails rest
        (acc ++ [(t, volume_name pfx t sfx)])

/-- `VolumeManager.create_volume_set` (volume.py lines 583–706), specialised
to an already-resolved name suffix: iterate over the fixed type order,
creating one volume per type. -/
def create_volume_set (pfx sfx : String) (runFails : VolumeType → Bool) :
    Except VolumeSetFailure (List (VolumeType × String)) :=
  create_volume_set_go pfx sfx runFails volume_set_order []

theorem create_volume_set_go_fail (pfx sfx : String)
    (runFails : VolumeType → Bool) :
    ∀ (pending : List VolumeType) (acc : List (VolumeType × String)),
      (∃ t ∈ pending, runFails t = true) →
      ∃ f, create_volume_set_go pfx sfx runFails pending acc =
          Except.error f ∧
        f.deletedForce =
          (acc ++ (pending.takeWhile (fun t => ! runFails t)).map
            (fun t => (t, volume_name pfx t sfx))).map Prod.snd := by
  intro pending
  induction pending with
  | nil =>
      intro acc h
      rcases h with ⟨t, ht, _⟩
      cases ht
  | cons t rest ih =>
      intro acc h
      by_cases hf : runFails t = true
      · refine ⟨{ failedType := t, deletedForce := acc.map Prod.snd }, ?_, ?_⟩
        · simp [create_volume_set_go, hf]
        · simp [List.takeWhile_cons, hf]
      · have h' : ∃ u ∈ rest, runFails u = true := by
          rcases h with ⟨u, hu, hru⟩
          rcases List.mem_cons.mp hu with rfl | hu'
          · exact absurd hru hf
          · exact ⟨u, hu', hru⟩
        obtain ⟨f, hgo, hdel⟩ := ih (acc ++ [(t, volume_name pfx t sfx)]) h'
        refine ⟨f, ?_, ?_⟩
        · simpa [create_volume_set_go, hf] using hgo
        · rw [hdel]
          have hbf : (! runFails t) = true := by simp [hf]
          simp [List.takeWhile_cons, hbf]

/-- C4: whenever the creation of any single volume type in the fixed ordered
list fails, `create_volume_set` surfaces an error, and the names force-deleted
during the compensating cleanup are exactly the volumes created earlier in
that same call (the longest prefix of the fixed order whose creations
succeeded), in creation order — all-or-nothing set creation leaving no volume
of the set behind. -/
theorem claim_c4_create_volume_set_rollback (pfx sfx : String)
    (runFails : VolumeType → Bool)
    (h : ∃ t ∈ volume_set_order, runFails t = true) :
    ∃ f, create_volume_set pfx sfx runFails = Except.error f ∧
      f.deletedForce =
        ((volume_set_order.takeWhile (fun t => ! runFails t)).map
          (fun t => (t, volume_name pfx t sfx))).map Prod.snd := by
  obtain ⟨f, hgo, hdel⟩ :=
    create_volume_set_go_fail pfx sfx runFails volume_set_order [] h
  exact ⟨f, hgo, by simpa using hdel⟩

/-- Witness for C4: creation fails at the `postgresql` volume; the volumes
created earlier (`data`, `logs`, `backup`) are exactly the ones force-deleted
before the error propagates. -/
theorem claim_c4_create_volume_set_rollback_witness :
    (∃ t ∈ volume_set_order,
      (fun u => u == VolumeType.postgresql) t = true) ∧
    ∃ f, create_volume_set "artifactory" "v7"
        (fun u => u == VolumeType.postgresql) = Except.error f ∧
      f.deletedForce =
        ((volume_set_order.takeWhile
            (fun t => ! (fun u => u == VolumeType.postgresql) t)).map
          (fun t => (t, volume_name "artifactory" t "v7"))).map Prod.snd :=
  ⟨⟨VolumeType.postgresql, by decide, by decide⟩,
    claim_c4_create_volume_set_rollback "artifactory" "v7"
      (fun u => u == VolumeType.postgresql)
      ⟨VolumeType.postgresql, by decide, by decide⟩⟩

/-- The external inputs of one `VolumeManager.restore_volume` run: Docker
availability, existence of the backup archive on disk, the outcome of the
`create_volume` call made when no target name is given (error = it raised),
and the outcome of the extraction command run in the utility container. -/
structure RestoreEnv where
  dockerAvailable : Bool
  backupFileExists : Bool
  createVolumeResult : Except String String
  extractOk : Bool

/-- The observable outcome of `restore_volume`: the returned
`(OperationStatus, Optional[str])` pair plus the tar command chosen for the
extraction step (`none` when extraction was never attempted). -/
structure RestoreResult where
  status : OperationStatus
  volumeName : Option String
  tarCommand : Option String
deriving DecidableEq, Repr

/-- The extraction-command selection of volume.py lines 436–439:
`tar_command = "tar -xf"`, replaced by `"tar -xzf"` when the archive is
compressed. -/
def restore_tar_command (is_compressed : Bool) : String :=
  if is_compressed then "tar -xzf" else "tar -xf"

/-- The extraction step of `restore_volume` (volume.py lines 435–471): run
the utility container; on success return `(SUCCESS, volume_name)`, on any
exception return `(ERROR, None)`. -/
def restore_extract (env : RestoreEnv) (is_compressed : Bool)
    (name : String) : RestoreResult :=
  let tar := restore_tar_command is_compressed
  if env.extractOk then
    { status := OperationStatus.success, volumeName := some name,
      tarCommand := some tar }
  else
    { status := OperationStatus.error, volumeName := none,
      tarCommand := some tar }

/-- `VolumeManager.restore_volume` (volume.py lines 356–471): Docker check,
archive-existence check, compression inferred from the filename suffix
(`.gz` or `.tgz`), target resolution (`if not volume_name:` requires
`volume_type` and creates a fresh volume), then extraction. -/
def restore_volume (env : RestoreEnv) (backupFileName : String)
    (volume_name_arg : Option String) (volume_type : Option VolumeType) :
    RestoreResult :=
  if ¬ env.dockerAvailable then
    { status := OperationStatus.error, volumeName := none, tarCommand := none }
  else if ¬ env.backupFileExists then
    { status := OperationStatus.error, volumeName := none, tarCommand := none }
  else
    let is_compressed :=
      pyEndsWith backupFileName ".gz" || pyEndsWith backupFileName ".tgz"
    if strFalsy volume_name_arg then
      match volume_type with
      | none =>
          { status := OperationStatus.error, volumeName := none,
            tarCommand := none }
      | some _ =>
          match env.createVolumeResult with
          | Except.error _ =>
              { status := OperationStatus.error, volumeName := none,
                tarCommand := none }
          | Except.ok newName => restore_extract env is_compressed newName
    else
      restore_extract env is_compressed (volume_name_arg.getD "")

/-- C5: for every backup file path, `restore_volume` selects the
decompressing extraction command `tar -xzf` if and only if the archive
filename ends in `.gz` or `.tgz`, and the plain `tar -xf` otherwise; the
choice depends only on the filename suffix — not on the environment, the
target volume name, or the volume type (which are universally quantified
here and absent from the selected command). -/
theorem claim_c5_tar_selection (env : RestoreEnv) (fname : String)
    (vn : Option String) (vt : Option VolumeType) :
    (restore_volume env fname vn vt).tarCommand = none ∨
    (restore_volume env fname vn vt).tarCommand =
      some (if pyEndsWith fname ".gz" || pyEndsWith fname ".tgz" then
        "tar -xzf" else "tar -xf") := by
  unfold restore_volume restore_extract restore_tar_command
  by_cases hda : env.dockerAvailable
  · by_cases hfe : env.backupFileExists
    · simp only [hda, hfe, not_true_eq_false, if_false]
      by_cases hvn : strFalsy vn
      · simp only [hvn, if_true]
        cases vt with
        | none => exact Or.inl rfl
        | some t =>
            cases env.createVolumeResult with
            | error e => exact Or.inl rfl
            | ok newName =>
                by_cases hex : env.extractOk
                · simp only [hex, if_true]
                  right
                  trivial
                · simp only [hex, if_false]
                  right
                  trivial
      · simp only [hvn, if_false]
        by_cases hex : env.extractOk
        · simp only [hex, if_true]
          right
          trivial
        · simp only [hex, if_false]
          right
          trivial
    · simp [hda, hfe]
  · simp [hda]

/-- C9: whenever the backup archive does not exist, or neither a target
volume name nor a volume type is supplied, `restore_volume` returns the
ERROR status with no volume name (rather than raising — the embedding is a
total function and these branches return normally). -/
theorem claim_c9_restore_missing_inputs (env : RestoreEnv) (fname : String)
    (vn : Option String) (vt : Option VolumeType)
    (h : env.backupFileExists = false ∨ (strFalsy vn = true ∧ vt = none)) :
    (restore_volume env fname vn vt).status = OperationStatus.error ∧
    (restore_volume env fname vn vt).volumeName = none := by
  by_cases hda : env.dockerAvailable
  · rcases h with hfe | ⟨hvn, hvt⟩
    · simp [restore_volume, hda, hfe]
    · by_cases hfe : env.backupFileExists
      · simp [restore_volume, hda, hfe, hvn, hvt]
      · simp [restore_volume, hda, hfe]
  · simp [restore_volume, hda]

/-- Witness for C9: a run whose backup archive is missing returns
`(ERROR, None)`. -/
theorem claim_c9_restore_missing_inputs_witness :
    (({ dockerAvailable := true, backupFileExists := false,
        createVolumeResult := Except.ok "v", extractOk := true } :
          RestoreEnv).backupFileExists = false ∨
      (strFalsy (some "artifactory_data_x") = true ∧
        (some VolumeType.data : Option VolumeType) = none)) ∧
    ((restore_volume
        { dockerAvailable := true, backupFileExists := false,
          createVolumeResult := Except.ok "v", extractOk := true }
        "artifactory_data_x_20240101.tar.gz" (some "artifactory_data_x")
        (some VolumeType.data)).status = OperationStatus.error ∧
      (restore_volume
        { dockerAvailable := true, backupFileExists := false,
          createVolumeResult := Except.ok "v", extractOk := true }
        "artifactory_data_x_20240101.tar.gz" (some "artifactory_data_x")
        (some VolumeType.data)).volumeName = none) :=
  ⟨Or.inl rfl,
    claim_c9_restore_missing_inputs _ _ _ _ (Or.inl rfl)⟩

/-! ## Safe file writing (`common/file_utils.py`) -/

/-- What currently occupies the target path: nothing, a file with some
content, or a directory with some entries. -/
inductive PathState where
  | absent
  | isFile (content : String)
  | isDir (entries : List String)
deriving DecidableEq, Repr

/-- The external inputs of one `safe_write_file` call: the two
`typer.confirm` answers (only consulted interactively), whether
`shutil.rmtree` succeeds, and whether `path.write_text` succeeds. -/
structure WriteEnv where
  confirmRemoveDir : Bool
  confirmOverwrite : Bool
  rmtreeOk : Bool
  writeOk : Bool

/-- `FileOperationResult` (file_utils.py lines 14–32), extended with the
state of the target path after the call so that "leaves the target
untouched" is expressible. -/
structure FileOperationResult where
  status : OperationStatus
  message : Option String
  fsAfter : PathState
deriving DecidableEq, Repr

/-- The final write step of `safe_write_file` (file_utils.py lines 100–111):
create parent directories, then `write_text`; an exception yields ERROR and
leaves the path in its prior state. -/
def write_step (env : WriteEnv) (fs : PathState) (content : String) :
    FileOperationResult :=
  if env.writeOk then
    { status := OperationStatus.success, message := none,
      fsAfter := PathState.isFile content }
  else
    { status := OperationStatus.error, message := some "Failed to write file",
      fsAfter := fs }

/-- `safe_write_file` (file_utils.py lines 35–111).  A directory at the
target fails immediately in non-interactive mode; interactively the user may
have it removed (`rmtree`) or skip.  An existing file is overwritten
unconditionally in non-interactive mode, or after confirmation
interactively.  Otherwise the content is written. -/
def safe_write_file (env : WriteEnv) (fs : PathState) (content : String)
    (non_interactive : Bool) : FileOperationResult :=
  match fs with
  | PathState.isDir entries =>
    if non_interactive then
      { status := OperationStatus.error,
        message := some "Path exists as a directory",
        fsAfter := PathState.isDir entries }
    else if env.confirmRemoveDir then
      if env.rmtreeOk then write_step env PathState.absent content
      else
        { status := OperationStatus.error,
          message := some "Failed to remove directory",
          fsAfter := PathState.isDir entries }
    else
      { status := OperationStatus.skipped,
        message := some "User chose not to remove directory",
        fsAfter := PathState.isDir entries }
  | PathState.isFile old =>
    if non_interactive then write_step env (PathState.isFile old) content
    else if env.confirmOverwrite then write_step env (PathState.isFile old) content
    else
      { status := OperationStatus.skipped,
        message := some "User chose not to overwrite file",
        fsAfter := PathState.isFile old }
  | PathState.absent => write_step env PathState.absent content

/-- C7: calling `safe_write_file` non-interactively on a path that currently
exists as a directory returns the ERROR (non-success) result, leaves the
directory and its entries untouched, and raises no exception (the branch
returns normally before any filesystem mutation). -/
theorem claim_c7_safe_write_dir_noninteractive (env : WriteEnv)
    (entries : List String) (content : String) :
    safe_write_file env (PathState.isDir entries) content true =
      { status := OperationStatus.error,
        message := some "Path exists as a directory",
        fsAfter := PathState.isDir entries } ∧
    (safe_write_file env (PathState.isDir entries) content true).status ≠
      OperationStatus.success := by
  constructor
  · rfl
  · intro h
    cases h
